import Mathlib

/-!
Shallow embedding of the butterfly-catching game's core simulation
(`scripts/butterfly.js`, `scripts/game.js`, `scripts/player.js`,
`scripts/utils.js`).

Modelling conventions:
* All JS numbers are modelled as `ℚ` (integral counters as `ℕ`/`ℤ`).
* `Math.cos`, `Math.sin`, `Math.atan2`, `Math.sqrt` and `Math.PI` are
  opaque-to-the-model parameters collected in a `MathEnv` record: the
  verified properties do not depend on their values.
* `Math.random()` is modelled as reading successive values from an
  explicit stream (`Rng`); each call site consumes one stream element in
  the order the source draws them.  Where a property needs it, the
  hypothesis `0 ≤ r < 1` states what `Math.random()` guarantees.
* `setTimeout(fn, d)` insertions are modelled as `Scheduled` records
  (delay, butterfly); firing one later is `fireScheduled`, which performs
  exactly the mutation the callback performs.
* DOM, rendering, audio and the leaderboard are out of scope and elided;
  they do not touch the simulation state modelled here.
-/

/-- Abstract interface for the `Math` functions the game uses. -/
structure MathEnv where
  cos : ℚ → ℚ
  sin : ℚ → ℚ
  atan2 : ℚ → ℚ → ℚ
  sqrt : ℚ → ℚ
  pi : ℚ

/-- A stream of `Math.random()` results together with the index of the
next draw. -/
structure Rng where
  stream : ℕ → ℚ
  idx : ℕ

/-- Draw the next random value (one `Math.random()` call). -/
def Rng.next (g : Rng) : ℚ × Rng :=
  (g.stream g.idx, ⟨g.stream, g.idx + 1⟩)

/-- `player.js`: `this.netRadius = 40`. -/
def netRadius : ℚ := 40

/-- The state of one butterfly (`butterfly.js` constructor fields that the
simulation reads or writes). -/
structure Butterfly where
  level : ℕ
  width : ℚ
  height : ℚ
  x : ℚ
  y : ℚ
  baseSpeed : ℚ
  speed : ℚ
  direction : ℚ
  vx : ℚ
  vy : ℚ
  wingFlapSpeed : ℚ
  wingFlapTime : ℚ
  wingFlapState : ℚ
  movementPattern : String
  catchRadius : ℚ
  hasCrossedScreen : Bool
  shouldRemove : Bool
  isBoss : Bool
  health : ℤ
  crossingPoint : Option (ℚ × ℚ)
  deriving DecidableEq

/-- `butterfly.js` constructor: `new Butterfly(game, image, level)`
(the `game`/`image` references and the unused direction-change fields are
elided). -/
def Butterfly.create (level : ℕ) : Butterfly :=
  let baseSize : ℚ := 50
  let sizeFactor : ℚ := max (1.2 - (level : ℚ) * 0.05) 0.7
  { level := level
    width := baseSize * sizeFactor
    height := baseSize * sizeFactor
    x := 0
    y := 0
    baseSpeed := 80 + (level : ℚ) * 15
    speed := 80 + (level : ℚ) * 15
    direction := 0
    vx := 0
    vy := 0
    wingFlapSpeed := 0.08 + (level : ℚ) * 0.008
    wingFlapTime := 0
    wingFlapState := 0
    movementPattern := "linear"
    catchRadius := max (40 - (level : ℚ) * 3) 15
    hasCrossedScreen := false
    shouldRemove := false
    isBoss := false
    health := 1
    crossingPoint := none }

/-- `Butterfly.update`, first block: the wing-flap animation. -/
def Butterfly.flap (b : Butterfly) (dt : ℚ) (env : MathEnv) : Butterfly :=
  let b := { b with wingFlapTime := b.wingFlapTime + dt }
  { b with
    wingFlapState := |env.sin (b.wingFlapTime / b.wingFlapSpeed * env.pi)| }

/-- `Butterfly.update`, second block: the 5%-per-frame wobble for the
`direct` movement pattern (draws the 5% test, then the adjustment,
exactly as the source short-circuits). -/
def Butterfly.wobble (b : Butterfly) (env : MathEnv) (rng : Rng) :
    Butterfly × Rng :=
  if b.movementPattern = "direct" then
    let (r₁, rng) := rng.next
    if r₁ < 0.05 then
      let (r₂, rng) := rng.next
      let d := b.direction + (r₂ - 0.5) * 0.1
      ({ b with direction := d, vx := env.cos d * b.speed,
                vy := env.sin d * b.speed }, rng)
    else (b, rng)
  else (b, rng)

/-- `Butterfly.update`, third block: position integration. -/
def Butterfly.integrate (b : Butterfly) (dt : ℚ) : Butterfly :=
  { b with x := b.x + b.vx * dt, y := b.y + b.vy * dt }

/-- `Butterfly.update`, fourth block: the one-way `hasCrossedScreen`
transition with its 5% speed boost. -/
def Butterfly.crossCheck (b : Butterfly) (W H : ℚ) (env : MathEnv) :
    Butterfly :=
  if ¬b.hasCrossedScreen ∧ (0 < b.x ∧ b.x < W ∧ 0 < b.y ∧ b.y < H) then
    let s := b.speed * 1.05
    { b with hasCrossedScreen := true, speed := s,
             vx := env.cos b.direction * s, vy := env.sin b.direction * s }
  else b

/-- `Butterfly.update`, fifth block: off-screen pruning with a 100 px
margin, only after crossing. -/
def Butterfly.pruneCheck (b : Butterfly) (W H : ℚ) : Butterfly :=
  let margin : ℚ := 100
  if (b.x < -margin ∨ b.x > W + margin ∨
      b.y < -margin ∨ b.y > H + margin) ∧ b.hasCrossedScreen then
    { b with shouldRemove := true }
  else b

/-- `Butterfly.update(deltaTime)` against a canvas of size `W × H`:
the five blocks of the source body in order. -/
def Butterfly.update (b : Butterfly) (dt W H : ℚ) (env : MathEnv)
    (rng : Rng) : Butterfly × Rng :=
  let b := b.flap dt env
  let (b, rng) := b.wobble env rng
  let b := b.integrate dt
  let b := b.crossCheck W H env
  let b := b.pruneCheck W H
  (b, rng)

/-- The distance test of `Butterfly.checkCatch` (`utils.js` `distance`
against `catchRadius + netRadius`). -/
def Butterfly.catchTest (b : Butterfly) (x y : ℚ) (env : MathEnv) : Bool :=
  let centerX := b.x + b.width / 2
  let centerY := b.y + b.height / 2
  let dist := env.sqrt ((x - centerX) * (x - centerX) +
    (y - centerY) * (y - centerY))
  dist ≤ b.catchRadius + netRadius

/-- `Butterfly.checkCatch(x, y)`: returns the caught flag and the
(possibly mutated) butterfly; a surviving boss draws one random for its
new direction. -/
def Butterfly.checkCatch (b : Butterfly) (x y : ℚ) (env : MathEnv)
    (rng : Rng) : Bool × Butterfly × Rng :=
  let isCaught := b.catchTest x y env
  if isCaught ∧ b.isBoss ∧ b.health ≠ 0 then
    let h := b.health - 1
    if h ≤ 0 then (true, { b with health := h }, rng)
    else
      let s := b.speed * 1.1
      let (r, rng) := rng.next
      let d := r * env.pi * 2
      (false, { b with health := h, speed := s, direction := d,
                       vx := env.cos d * s, vy := env.sin d * s }, rng)
  else (isCaught, b, rng)

/-- A deferred `setTimeout` insertion of one butterfly into the live
collection (`delay` in milliseconds). -/
structure Scheduled where
  delay : ℚ
  butterfly : Butterfly
  deriving DecidableEq

/-- `game.js` constructor: `this.maxLevel = 10`. -/
def maxLevel : ℕ := 10

/-- The Level/Wave state of `game.js` that the core simulation reads or
writes (rendering-only fields elided). -/
structure GameState where
  currentLevel : ℕ
  currentWave : ℕ
  score : ℕ
  levelTimer : ℚ
  countdownActive : Bool
  countdownTime : ℤ
  /-- whether `clearInterval` has run on the countdown interval of
  `start()` (true once the countdown has fired its spawn). -/
  intervalCleared : Bool
  hasPlayedInitialCountdown : Bool
  isWaveTransitioning : Bool
  waveTimer : ℚ
  isLevelTransitioning : Bool
  levelTransitionStartTime : Option ℚ
  levelTransitionDuration : ℚ
  levelTransitionComplete : Bool
  butterflies : List Butterfly
  butterflyCounts : ℕ → ℕ
  isRunning : Bool
  gameStarted : Bool
  showingStartScreen : Bool
  showingInstructions : Bool
  showingSummaryScreen : Bool

/-- The state `Game.start()` establishes (the play-again handler clears
`showingSummaryScreen` before calling `start()`; the transition timing
fields are unset until `levelComplete` runs, modelled as `none`/`0`). -/
def Game.startState : GameState :=
  { currentLevel := 1
    currentWave := 0
    score := 0
    levelTimer := 0
    countdownActive := true
    countdownTime := 3
    intervalCleared := false
    hasPlayedInitialCountdown := false
    isWaveTransitioning := false
    waveTimer := 0
    isLevelTransitioning := false
    levelTransitionStartTime := none
    levelTransitionDuration := 0
    levelTransitionComplete := false
    butterflies := []
    butterflyCounts := fun _ => 0
    isRunning := true
    gameStarted := true
    showingStartScreen := false
    showingInstructions := false
    showingSummaryScreen := false }

/-- `game.js` `actuallySpawnButterflies`: the formation names table. -/
def formations : List String := ["line", "v", "circle", "grid", "random"]

/-- `Game.positionButterflyInFormation(butterfly, formation, index,
count, spawnSide)`.  The source body ignores `formation`, `index` and
`count`; randoms are drawn in source order (optional edge pick, crossing
x, crossing y, the one edge-position coordinate, direction jitter). -/
def positionButterflyInFormation (b : Butterfly) (formation : String)
    (index count : ℕ) (spawnSide : Option ℕ) (W H : ℚ) (env : MathEnv)
    (rng : Rng) : Butterfly × Rng :=
  let (edge, rng) :=
    match spawnSide with
    | some s => (s, rng)
    | none =>
      let (r, rng) := rng.next
      ((⌊r * 4⌋).toNat, rng)
  let (rX, rng) := rng.next
  let crossingX := W * (0.2 + rX * 0.6)
  let (rY, rng) := rng.next
  let crossingY := H * (0.2 + rY * 0.6)
  let (b, rng) :=
    if edge = 0 then
      let (r, rng) := rng.next
      ({ b with x := W * r, y := -b.height * 2 }, rng)
    else if edge = 1 then
      let (r, rng) := rng.next
      ({ b with x := W + b.width, y := H * r }, rng)
    else if edge = 2 then
      let (r, rng) := rng.next
      ({ b with x := W * r, y := H + b.height }, rng)
    else if edge = 3 then
      let (r, rng) := rng.next
      ({ b with x := -b.width * 2, y := H * r }, rng)
    else (b, rng)
  let dx := crossingX - b.x
  let dy := crossingY - b.y
  let d₀ := env.atan2 dy dx
  let (rj, rng) := rng.next
  let d := d₀ + (rj - 0.5) * env.pi / 4
  ({ b with direction := d, vx := env.cos d * b.speed,
            vy := env.sin d * b.speed,
            crossingPoint := some (crossingX, crossingY),
            movementPattern := "direct" }, rng)

/-- The regular-level spawn loop of `actuallySpawnButterflies`: for each
index, create a butterfly, position it, apply the 80%–120% random speed
variation scaled by the 10%-per-level bonus, and schedule its insertion
with an `i * 50` ms delay. -/
def spawnButterflyAt (safeLevel : ℕ) (formation : String) (i count : ℕ)
    (W H : ℚ) (env : MathEnv) (rng : Rng) : Butterfly × Rng :=
  let b := Butterfly.create safeLevel
  let (b, rng) :=
    positionButterflyInFormation b formation i count none W H env rng
  let levelSpeedBonus := 1 + ((safeLevel : ℚ) - 1) * 0.1
  let (r, rng) := rng.next
  let speedVariation := (0.8 + r * 0.4) * levelSpeedBonus
  let b := { b with speed := b.speed * speedVariation }
  let b := { b with vx := env.cos b.direction * b.speed,
                    vy := env.sin b.direction * b.speed }
  (b, rng)

def spawnWaveGo (safeLevel : ℕ) (formation : String) (count : ℕ)
    (W H : ℚ) (env : MathEnv) : List ℕ → Rng → List Scheduled × Rng
  | [], rng => ([], rng)
  | i :: rest, rng =>
    let (b, rng) := spawnButterflyAt safeLevel formation i count W H env rng
    let (rest', rng) := spawnWaveGo safeLevel formation count W H env rest rng
    (⟨(i : ℚ) * 50, b⟩ :: rest', rng)

/-- `Game.spawnBossButterfly()`: one boss scheduled at 1000 ms plus 8
level-9 minions on a circle of radius 150 around the canvas center,
scheduled at `500 + i * 100` ms. -/
def spawnBossButterfly (W H : ℚ) (env : MathEnv) (rng : Rng) :
    List Scheduled × Rng :=
  let boss := Butterfly.create 10
  let boss := { boss with
    width := boss.width * 2.5
    height := boss.height * 2.5
    catchRadius := boss.catchRadius * 0.7
    speed := boss.speed * 0.8
    health := 5
    isBoss := true
    x := W / 2
    y := H / 2 }
  let (r, rng) := rng.next
  let d := r * env.pi * 2
  let boss := { boss with direction := d, vx := env.cos d * boss.speed,
                          vy := env.sin d * boss.speed }
  let minions := (List.range 8).map fun (i : ℕ) =>
    let m := Butterfly.create 9
    let angle := ((i : ℚ) / 8) * env.pi * 2
    let m := { m with
      x := W / 2 + env.cos angle * 150
      y := H / 2 + env.sin angle * 150
      direction := angle }
    let m := { m with vx := env.cos m.direction * m.speed,
                      vy := env.sin m.direction * m.speed }
    (⟨500 + (i : ℚ) * 100, m⟩ : Scheduled)
  (⟨1000, boss⟩ :: minions, rng)

/-- `Game.actuallySpawnButterflies(wave)`: clamps the level, dispatches
to the boss spawn at level 10, otherwise schedules the 15-butterfly wave;
both paths end with `this.levelTimer = 0`. -/
def actuallySpawnButterflies (g : GameState) (W H : ℚ) (env : MathEnv)
    (rng : Rng) : GameState × List Scheduled × Rng :=
  let safeLevel := min (max g.currentLevel 1) maxLevel
  if safeLevel = 10 then
    let (sch, rng) := spawnBossButterfly W H env rng
    ({ g with levelTimer := 0 }, sch, rng)
  else
    let butterflyCount := 15
    let formation := formations.getD ((safeLevel - 1) % formations.length) "random"
    let (sch, rng) := spawnWaveGo safeLevel formation butterflyCount W H env
      (List.range butterflyCount) rng
    ({ g with levelTimer := 0 }, sch, rng)

/-- `Game.spawnButterflies(wave)`. -/
def spawnButterflies (g : GameState) (W H : ℚ) (env : MathEnv)
    (rng : Rng) : GameState × List Scheduled × Rng :=
  let g := { g with hasPlayedInitialCountdown := true }
  actuallySpawnButterflies g W H env rng

/-- Firing one deferred `setTimeout` insertion: the callback pushes its
butterfly into the current live collection unconditionally. -/
def fireScheduled (g : GameState) (s : Scheduled) : GameState :=
  { g with butterflies := g.butterflies ++ [s.butterfly] }

/-- `Game.gameComplete()` (DOM/leaderboard side effects elided). -/
def gameComplete (g : GameState) : GameState :=
  { g with isRunning := false, showingSummaryScreen := true }

/-- `Game.levelComplete(fastTransition)`; `now` is `Date.now()` at the
call.  The `fastTransition` argument is accepted and never read, as in
the source. -/
def levelComplete (g : GameState) (fastTransition : Bool) (now : ℚ) :
    GameState :=
  if g.isLevelTransitioning then g
  else
    let g := { g with isLevelTransitioning := true }
    if g.currentLevel < maxLevel then
      { g with currentLevel := g.currentLevel + 1
               levelTransitionStartTime := some now
               levelTransitionDuration := 1000
               levelTransitionComplete := false }
    else gameComplete g

/-- `Game.startNextLevel()`. -/
def startNextLevel (g : GameState) (W H : ℚ) (env : MathEnv) (rng : Rng) :
    GameState × List Scheduled × Rng :=
  let g := { g with currentWave := 0, isWaveTransitioning := false,
                    waveTimer := 0, levelTimer := 0 }
  let (g, sch, rng) := spawnButterflies g W H env rng
  let g := { g with isLevelTransitioning := false,
                    levelTransitionComplete := true,
                    levelTransitionStartTime := none }
  (g, sch, rng)

/-- One firing of the countdown `setInterval` callback in `Game.start()`
(a cleared interval no longer fires). -/
def countdownTick (g : GameState) (W H : ℚ) (env : MathEnv) (rng : Rng) :
    GameState × List Scheduled × Rng :=
  if g.intervalCleared then (g, [], rng)
  else
    let g := { g with countdownTime := g.countdownTime - 1 }
    if g.countdownTime ≤ 0 then
      let g := { g with intervalCleared := true, countdownActive := false,
                        levelTimer := 0 }
      spawnButterflies g W H env rng
    else (g, [], rng)

/-- The butterfly update-and-prune loop of `Game.update` (`for i =
length-1 downto 0: update; splice if shouldRemove`), expressed on the
reversed collection (most recent first, as the loop visits them). -/
def updateButterfliesGo (dt W H : ℚ) (env : MathEnv) :
    List Butterfly → Rng → List Butterfly × Rng
  | [], rng => ([], rng)
  | b :: rest, rng =>
    let (b, rng) := b.update dt W H env rng
    let (rest', rng) := updateButterfliesGo dt W H env rest rng
    if b.shouldRemove then (rest', rng) else (b :: rest', rng)

/-- The catch loop of `Game.handleClick`, expressed on the reversed
collection (the source iterates from the end, most-recently-spawned
first, and breaks at the first `checkCatch` success).  Returns the
surviving butterflies (same reversed orientation), the caught butterfly
if any, and the advanced random stream. -/
def clickGo (x y : ℚ) (env : MathEnv) :
    List Butterfly → Rng → List Butterfly × Option Butterfly × Rng
  | [], rng => ([], none, rng)
  | b :: rest, rng =>
    let (c, b, rng) := b.checkCatch x y env rng
    if c then (rest, some b, rng)
    else
      let (rest', res, rng) := clickGo x y env rest rng
      (b :: rest', res, rng)

/-- `Game.handleClick(e)` with the click already translated to canvas
coordinates `(x, y)`. -/
def Game.handleClick (g : GameState) (x y : ℚ) (env : MathEnv)
    (rng : Rng) : GameState × Rng :=
  if g.isLevelTransitioning ∨ g.countdownActive then (g, rng)
  else if g.showingStartScreen ∨ g.showingInstructions ∨
      g.showingSummaryScreen then (g, rng)
  else
    let (bs, caught, rng) := clickGo x y env g.butterflies.reverse rng
    match caught with
    | none => ({ g with butterflies := bs.reverse }, rng)
    | some c =>
      ({ g with
          score := g.score + c.level * 10
          butterflyCounts :=
            Function.update g.butterflyCounts c.level
              (g.butterflyCounts c.level + 1)
          butterflies := bs.reverse }, rng)

/-- The per-butterfly body of the opportunistic extra-group spawn in
`Game.update` (create at the current level, position with the shared
spawn side, 20% speed boost, pushed synchronously). -/
def extraSpawnGo (level : ℕ) (formation : String) (count spawnSide : ℕ)
    (W H : ℚ) (env : MathEnv) : List ℕ → Rng → List Butterfly × Rng
  | [], rng => ([], rng)
  | i :: rest, rng =>
    let b := Butterfly.create level
    let (b, rng) := positionButterflyInFormation b formation i count
      (some spawnSide) W H env rng
    let b := { b with speed := b.speed * 1.2 }
    let b := { b with vx := env.cos b.direction * b.speed,
                      vy := env.sin b.direction * b.speed }
    let (rest', rng) := extraSpawnGo level formation count spawnSide W H env
      rest rng
    (b :: rest', rng)

/-- The opportunistic mid-level spawn at the end of `Game.update`: while
not transitioning and fewer than 20 live butterflies, a 1% draw spawns a
group of 3–5 extra butterflies from one random side. -/
def opportunisticSpawn (g : GameState) (W H : ℚ) (env : MathEnv)
    (rng : Rng) : GameState × Rng :=
  if ¬g.isLevelTransitioning ∧ g.butterflies.length < 20 then
    let (r, rng) := rng.next
    if r < 0.01 then
      let (rf, rng) := rng.next
      let formation := formations.getD (⌊rf * (formations.length : ℚ)⌋).toNat
        "random"
      let (rc, rng) := rng.next
      let count := 3 + (⌊rc * 3⌋).toNat
      let (rs, rng) := rng.next
      let spawnSide := (⌊rs * 4⌋).toNat
      let (nbs, rng) := extraSpawnGo g.currentLevel formation count spawnSide
        W H env (List.range count) rng
      ({ g with butterflies := g.butterflies ++ nbs }, rng)
    else (g, rng)
  else (g, rng)

/-- The level-progression checks of `Game.update` (time limit, then
empty collection), each calling `levelComplete(true)` and zeroing the
level timer.  The boolean records whether the source `return`ed early
(the time-limit branch), skipping the opportunistic spawn. -/
def progressionCheck (g : GameState) (now : ℚ) : GameState × Bool :=
  let allowLevelProgression := g.butterflies ≠ [] ∨ g.levelTimer ≥ 2
  if allowLevelProgression ∧ g.levelTimer ≥ 10 ∧ ¬g.isLevelTransitioning then
    ({ levelComplete g true now with levelTimer := 0 }, true)
  else if allowLevelProgression ∧ g.butterflies = [] ∧
      ¬g.isLevelTransitioning then
    ({ levelComplete g true now with levelTimer := 0 }, false)
  else (g, false)

/-- `Game.update(deltaTime)`: transition/countdown guards, butterfly
kinematics and pruning, level timer, progression checks, opportunistic
spawn.  `now` is `Date.now()` as seen by `levelComplete`. -/
def Game.update (g : GameState) (dt now W H : ℚ) (env : MathEnv)
    (rng : Rng) : GameState × Rng :=
  if g.isLevelTransitioning then (g, rng)
  else if g.countdownActive then (g, rng)
  else
    let (bs, rng) := updateButterfliesGo dt W H env g.butterflies.reverse rng
    let g := { g with butterflies := bs.reverse,
                      levelTimer := g.levelTimer + dt }
    let (g, returnedEarly) := progressionCheck g now
    if returnedEarly then (g, rng)
    else opportunisticSpawn g W H env rng

/-- One externally triggered event of a game session.  Each constructor
carries the environment/stream its handler consumes. -/
inductive Op where
  | upd (dt now W H : ℚ) (env : MathEnv) (rng : Rng)
  | click (x y : ℚ) (env : MathEnv) (rng : Rng)
  | complete (fastTransition : Bool) (now : ℚ)
  | next (W H : ℚ) (env : MathEnv) (rng : Rng)
  | tick (W H : ℚ) (env : MathEnv) (rng : Rng)
  | fire (s : Scheduled)

/-- Apply one session event to the game state. -/
def applyOp (g : GameState) : Op → GameState
  | .upd dt now W H env rng => (Game.update g dt now W H env rng).1
  | .click x y env rng => (Game.handleClick g x y env rng).1
  | .complete ft now => levelComplete g ft now
  | .next W H env rng => (startNextLevel g W H env rng).1
  | .tick W H env rng => (countdownTick g W H env rng).1
  | .fire s => fireScheduled g s

/-- The state of a session after a sequence of events, starting from
`Game.start()`. -/
def sessionState (ops : List Op) : GameState :=
  ops.foldl applyOp Game.startState

/-- Run `n` countdown-interval firings, collecting every schedule they
emit. -/
def runTicks (W H : ℚ) (env : MathEnv) :
    ℕ → GameState → Rng → GameState × List Scheduled × Rng
  | 0, g, rng => (g, [], rng)
  | n + 1, g, rng =>
    let (g, sch, rng) := countdownTick g W H env rng
    let (g', sch', rng') := runTicks W H env n g rng
    (g', sch ++ sch', rng')

/-! ### Helper objects for concrete evaluations -/

/-- A concrete `MathEnv` (values are irrelevant to the properties). -/
def envC : MathEnv := ⟨fun _ => 0, fun _ => 0, fun _ _ => 0, fun _ => 0, 3⟩

/-- A concrete random stream. -/
def rngC : Rng := ⟨fun _ => 0, 0⟩

/-- A session state in normal play (countdown already finished). -/
def playState : GameState := { Game.startState with countdownActive := false }

/-- A session state in the middle of a level transition. -/
def transState : GameState :=
  { Game.startState with isLevelTransitioning := true }

/-! ### `checkCatch` lemmas -/

/-- The butterfly `checkCatch` writes when a boss survives a hit: health
down one, speed up 10%, fresh random direction with `vx`/`vy` recomputed
from it. -/
def bossDamaged (b : Butterfly) (env : MathEnv) (rng : Rng) : Butterfly :=
  let s := b.speed * 1.1
  let d := rng.next.1 * env.pi * 2
  { b with health := b.health - 1, speed := s, direction := d,
           vx := env.cos d * s, vy := env.sin d * s }

theorem checkCatch_boss_surviving (b : Butterfly) (x y : ℚ) (env : MathEnv)
    (rng : Rng) (hB : b.isBoss = true) (hC : b.catchTest x y env = true)
    (h2 : 2 ≤ b.health) :
    b.checkCatch x y env rng = (false, bossDamaged b env rng, rng.next.2) := by
  have hne : b.health ≠ 0 := by omega
  have hgt : ¬b.health - 1 ≤ 0 := by omega
  simp [Butterfly.checkCatch, bossDamaged, hB, hC, hne, hgt]

theorem checkCatch_boss_final (b : Butterfly) (x y : ℚ) (env : MathEnv)
    (rng : Rng) (hB : b.isBoss = true) (hC : b.catchTest x y env = true)
    (h1 : b.health = 1) :
    b.checkCatch x y env rng = (true, { b with health := 0 }, rng) := by
  simp [Butterfly.checkCatch, hB, hC, h1]

theorem checkCatch_nonBoss (b : Butterfly) (x y : ℚ) (env : MathEnv)
    (rng : Rng) (hB : b.isBoss = false) :
    b.checkCatch x y env rng = (b.catchTest x y env, b, rng) := by
  simp [Butterfly.checkCatch, hB]

theorem checkCatch_miss (b : Butterfly) (x y : ℚ) (env : MathEnv)
    (rng : Rng) (hC : b.catchTest x y env = false) :
    b.checkCatch x y env rng = (false, b, rng) := by
  simp [Butterfly.checkCatch, hC]

theorem bossDamaged_catchTest (b : Butterfly) (env : MathEnv) (rng : Rng)
    (x y : ℚ) :
    (bossDamaged b env rng).catchTest x y env = b.catchTest x y env := rfl

theorem bossDamaged_isBoss (b : Butterfly) (env : MathEnv) (rng : Rng) :
    (bossDamaged b env rng).isBoss = b.isBoss := rfl

theorem bossDamaged_health (b : Butterfly) (env : MathEnv) (rng : Rng) :
    (bossDamaged b env rng).health = b.health - 1 := rfl

/-! ### Iterated in-radius hits (for the boss health drain) -/

/-- State of a butterfly after `n` successive `checkCatch` calls at the
same click point. -/
def hitSeq (x y : ℚ) (env : MathEnv) : ℕ → Butterfly → Rng → Butterfly × Rng
  | 0, b, rng => (b, rng)
  | n + 1, b, rng =>
    let (b', rng') := hitSeq x y env n b rng
    let (_, b'', rng'') := b'.checkCatch x y env rng'
    (b'', rng'')

/-- The boolean returned by the `(n+1)`-th `checkCatch` call. -/
def hitRes (x y : ℚ) (env : MathEnv) (n : ℕ) (b : Butterfly) (rng : Rng) :
    Bool :=
  ((hitSeq x y env n b rng).1.checkCatch x y env
    (hitSeq x y env n b rng).2).1

theorem hitSeq_succ (x y : ℚ) (env : MathEnv) (n : ℕ) (b : Butterfly)
    (rng : Rng) :
    hitSeq x y env (n + 1) b rng =
      (((hitSeq x y env n b rng).1.checkCatch x y env
          (hitSeq x y env n b rng).2).2.1,
       ((hitSeq x y env n b rng).1.checkCatch x y env
          (hitSeq x y env n b rng).2).2.2) := rfl

theorem hitSeq_boss_inv (b : Butterfly) (x y : ℚ) (env : MathEnv)
    (rng : Rng) (hB : b.isBoss = true) (hC : b.catchTest x y env = true)
    (hH : b.health = 5) :
    ∀ i, i ≤ 4 →
      (hitSeq x y env i b rng).1.isBoss = true ∧
      (hitSeq x y env i b rng).1.catchTest x y env = true ∧
      (hitSeq x y env i b rng).1.health = 5 - (i : ℤ) := by
  intro i
  induction i with
  | zero =>
    intro _
    refine ⟨hB, hC, ?_⟩
    simp [hitSeq, hH]
  | succ n ih =>
    intro hn
    obtain ⟨h1, h2, h3⟩ := ih (by omega)
    have h2le : 2 ≤ (hitSeq x y env n b rng).1.health := by
      rw [h3]; omega
    rw [hitSeq_succ,
      checkCatch_boss_surviving _ _ _ _ _ h1 h2 h2le]
    dsimp only
    refine ⟨?_, ?_, ?_⟩
    · rw [bossDamaged_isBoss]; exact h1
    · rw [bossDamaged_catchTest]; exact h2
    · rw [bossDamaged_health, h3]; push_cast; ring

/-- C4: a boss butterfly with health 5 needs exactly 5 in-radius
`checkCatch` calls before one returns true; each of the first 4 returns
false, decrements health by 1, multiplies speed by 1.1 and assigns a
fresh random direction with `vx`/`vy` recomputed from it; a non-boss
butterfly returns the distance-test result directly, unchanged. -/
theorem c4_boss_health_drain (b : Butterfly) (x y : ℚ) (env : MathEnv)
    (rng : Rng) (hB : b.isBoss = true) (hH : b.health = 5)
    (hC : b.catchTest x y env = true) :
    (∀ i, i < 4 → hitRes x y env i b rng = false) ∧
    hitRes x y env 4 b rng = true ∧
    (∀ i, i ≤ 4 → (hitSeq x y env i b rng).1.health = 5 - (i : ℤ)) ∧
    (∀ i, i < 4 →
      (hitSeq x y env (i + 1) b rng).1 =
        bossDamaged (hitSeq x y env i b rng).1 env
          (hitSeq x y env i b rng).2 ∧
      (hitSeq x y env (i + 1) b rng).1.speed =
        (hitSeq x y env i b rng).1.speed * 1.1 ∧
      (hitSeq x y env (i + 1) b rng).1.direction =
        ((hitSeq x y env i b rng).2).next.1 * env.pi * 2 ∧
      (hitSeq x y env (i + 1) b rng).1.vx =
        env.cos ((hitSeq x y env (i + 1) b rng).1.direction) *
          (hitSeq x y env (i + 1) b rng).1.speed ∧
      (hitSeq x y env (i + 1) b rng).1.vy =
        env.sin ((hitSeq x y env (i + 1) b rng).1.direction) *
          (hitSeq x y env (i + 1) b rng).1.speed) ∧
    (∀ (b' : Butterfly) (rng' : Rng), b'.isBoss = false →
      b'.checkCatch x y env rng' = (b'.catchTest x y env, b', rng')) := by
  have inv := hitSeq_boss_inv b x y env rng hB hC hH
  refine ⟨?_, ?_, ?_, ?_, ?_⟩
  · intro i hi
    obtain ⟨h1, h2, h3⟩ := inv i (by omega)
    have h2le : 2 ≤ (hitSeq x y env i b rng).1.health := by rw [h3]; omega
    unfold hitRes
    rw [checkCatch_boss_surviving _ _ _ _ _ h1 h2 h2le]
  · obtain ⟨h1, h2, h3⟩ := inv 4 le_rfl
    have h1e : (hitSeq x y env 4 b rng).1.health = 1 := by
      rw [h3]; norm_num
    unfold hitRes
    rw [checkCatch_boss_final _ _ _ _ _ h1 h2 h1e]
  · intro i hi
    exact (inv i hi).2.2
  · intro i hi
    obtain ⟨h1, h2, h3⟩ := inv i (by omega)
    have h2le : 2 ≤ (hitSeq x y env i b rng).1.health := by rw [h3]; omega
    have hEq : (hitSeq x y env (i + 1) b rng).1 =
        bossDamaged (hitSeq x y env i b rng).1 env
          (hitSeq x y env i b rng).2 := by
      rw [hitSeq_succ, checkCatch_boss_surviving _ _ _ _ _ h1 h2 h2le]
    refine ⟨hEq, ?_, ?_, ?_, ?_⟩ <;> rw [hEq] <;> rfl
  · intro b' rng' hB'
    exact checkCatch_nonBoss b' x y env rng' hB'

/-- Witness for C4 at a concrete boss and click. -/
theorem c4_boss_health_drain_witness :
    ({ Butterfly.create 10 with isBoss := true, health := 5 } :
        Butterfly).catchTest 0 0 envC = true ∧
    hitRes 0 0 envC 4
      { Butterfly.create 10 with isBoss := true, health := 5 } rngC = true ∧
    hitRes 0 0 envC 0
      { Butterfly.create 10 with isBoss := true, health := 5 } rngC =
      false := by
  have hC : ({ Butterfly.create 10 with isBoss := true, health := 5 } :
      Butterfly).catchTest 0 0 envC = true := by
    simp only [Butterfly.catchTest, Butterfly.create, envC, netRadius]
    norm_num
  exact ⟨hC,
    (c4_boss_health_drain _ 0 0 envC rngC rfl rfl hC).2.1,
    (c4_boss_health_drain _ 0 0 envC rngC rfl rfl hC).1 0 (by norm_num)⟩

/-- C2: calling `levelComplete` while a level transition is already in
progress is a no-op: the state (level, score, collection, transition
state) is returned unchanged, and no second transition starts. -/
theorem c2_levelComplete_reentrant_noop (g : GameState) (ft : Bool)
    (now : ℚ) (h : g.isLevelTransitioning = true) :
    levelComplete g ft now = g := by
  simp [levelComplete, h]

/-- Witness for C2 at a concrete transitioning state. -/
theorem c2_levelComplete_reentrant_noop_witness :
    transState.isLevelTransitioning = true ∧
    levelComplete transState false 0 = transState :=
  ⟨rfl, c2_levelComplete_reentrant_noop transState false 0 rfl⟩

/-! ### Kinematics-update lemmas (for removal correctness) -/

/-- The 100 px off-screen pruning condition of `Butterfly.update`. -/
def outOfMargin (x y W H : ℚ) : Prop :=
  x < -100 ∨ x > W + 100 ∨ y < -100 ∨ y > H + 100

theorem flap_flags (b : Butterfly) (dt : ℚ) (env : MathEnv) :
    (b.flap dt env).hasCrossedScreen = b.hasCrossedScreen ∧
    (b.flap dt env).shouldRemove = b.shouldRemove := ⟨rfl, rfl⟩

theorem wobble_flags (b : Butterfly) (env : MathEnv) (rng : Rng) :
    (b.wobble env rng).1.hasCrossedScreen = b.hasCrossedScreen ∧
    (b.wobble env rng).1.shouldRemove = b.shouldRemove := by
  unfold Butterfly.wobble Rng.next
  by_cases h1 : b.movementPattern = "direct" <;> simp [h1]
  split <;> simp

theorem integrate_flags (b : Butterfly) (dt : ℚ) :
    (b.integrate dt).hasCrossedScreen = b.hasCrossedScreen ∧
    (b.integrate dt).shouldRemove = b.shouldRemove := ⟨rfl, rfl⟩

theorem crossCheck_of_crossed (b : Butterfly) (W H : ℚ) (env : MathEnv)
    (h : b.hasCrossedScreen = true) : b.crossCheck W H env = b := by
  simp [Butterfly.crossCheck, h]

theorem crossCheck_x (b : Butterfly) (W H : ℚ) (env : MathEnv) :
    (b.crossCheck W H env).x = b.x ∧ (b.crossCheck W H env).y = b.y ∧
    (b.crossCheck W H env).shouldRemove = b.shouldRemove := by
  unfold Butterfly.crossCheck
  split <;> exact ⟨rfl, rfl, rfl⟩

/-- A butterfly that crossed during this very `crossCheck` is strictly
inside the canvas. -/
theorem crossCheck_fresh_inside (b : Butterfly) (W H : ℚ) (env : MathEnv)
    (h0 : b.hasCrossedScreen = false)
    (h1 : (b.crossCheck W H env).hasCrossedScreen = true) :
    0 < b.x ∧ b.x < W ∧ 0 < b.y ∧ b.y < H := by
  by_cases hc : (¬b.hasCrossedScreen = true ∧
      (0 < b.x ∧ b.x < W ∧ 0 < b.y ∧ b.y < H))
  · exact hc.2
  · rw [show b.crossCheck W H env = b by
      unfold Butterfly.crossCheck; exact if_neg hc] at h1
    rw [h0] at h1
    exact absurd h1 (by simp)

theorem pruneCheck_x (b : Butterfly) (W H : ℚ) :
    (b.pruneCheck W H).x = b.x ∧ (b.pruneCheck W H).y = b.y ∧
    (b.pruneCheck W H).hasCrossedScreen = b.hasCrossedScreen := by
  unfold Butterfly.pruneCheck
  by_cases hc : ((b.x < -(100 : ℚ) ∨ b.x > W + 100 ∨
      b.y < -(100 : ℚ) ∨ b.y > H + 100) ∧ b.hasCrossedScreen = true)
  · rw [if_pos hc]; exact ⟨rfl, rfl, rfl⟩
  · rw [if_neg hc]; exact ⟨rfl, rfl, rfl⟩

theorem pruneCheck_shouldRemove (b : Butterfly) (W H : ℚ) :
    ((b.pruneCheck W H).shouldRemove = true ↔
      b.shouldRemove = true ∨
        (outOfMargin b.x b.y W H ∧ b.hasCrossedScreen = true)) := by
  unfold Butterfly.pruneCheck outOfMargin
  by_cases hc : ((b.x < -(100 : ℚ) ∨ b.x > W + 100 ∨
      b.y < -(100 : ℚ) ∨ b.y > H + 100) ∧ b.hasCrossedScreen = true)
  · rw [if_pos hc]
    simpa using Or.inr hc
  · rw [if_neg hc]
    constructor
    · exact Or.inl
    · rintro (h | h)
      · exact h
      · exact absurd h hc

theorem update_fst (b : Butterfly) (dt W H : ℚ) (env : MathEnv)
    (rng : Rng) :
    (b.update dt W H env rng).1 =
      ((((b.flap dt env).wobble env rng).1.integrate dt).crossCheck W H
        env).pruneCheck W H := rfl

/-- `hasCrossedScreen` is one-way: once set it survives any update. -/
theorem update_crossed_mono (b : Butterfly) (dt W H : ℚ) (env : MathEnv)
    (rng : Rng) (h : b.hasCrossedScreen = true) :
    (b.update dt W H env rng).1.hasCrossedScreen = true := by
  rw [update_fst]
  have hm : (((b.flap dt env).wobble env rng).1.integrate
      dt).hasCrossedScreen = true := by
    rw [(integrate_flags _ _).1, (wobble_flags _ _ _).1, (flap_flags _ _ _).1]
    exact h
  rw [crossCheck_of_crossed _ _ _ _ hm, (pruneCheck_x _ _ _).2.2]
  exact hm

/-- An update can only set `shouldRemove` on a butterfly that has (by
the end of the call) crossed the screen. -/
theorem update_remove_crossed (b : Butterfly) (dt W H : ℚ)
    (env : MathEnv) (rng : Rng)
    (h : (b.update dt W H env rng).1.shouldRemove = true) :
    b.shouldRemove = true ∨
      (b.update dt W H env rng).1.hasCrossedScreen = true := by
  rw [update_fst] at h ⊢
  rcases (pruneCheck_shouldRemove _ _ _).mp h with h1 | h1
  · left
    rw [(crossCheck_x _ _ _ _).2.2, (integrate_flags _ _).2,
      (wobble_flags _ _ _).2, (flap_flags _ _ _).2] at h1
    exact h1
  · right
    rw [(pruneCheck_x _ _ _).2.2]
    exact h1.2

/-- After crossing, an update sets `shouldRemove` exactly when the
post-move position is outside the canvas by the 100 px margin. -/
theorem update_remove_iff (b : Butterfly) (dt W H : ℚ) (env : MathEnv)
    (rng : Rng) (h : b.hasCrossedScreen = true)
    (hr : b.shouldRemove = false) :
    ((b.update dt W H env rng).1.shouldRemove = true ↔
      outOfMargin (b.update dt W H env rng).1.x
        (b.update dt W H env rng).1.y W H) := by
  have hm : (((b.flap dt env).wobble env rng).1.integrate
      dt).hasCrossedScreen = true := by
    rw [(integrate_flags _ _).1, (wobble_flags _ _ _).1, (flap_flags _ _ _).1]
    exact h
  have hs : (((b.flap dt env).wobble env rng).1.integrate
      dt).shouldRemove = false := by
    rw [(integrate_flags _ _).2, (wobble_flags _ _ _).2, (flap_flags _ _ _).2]
    exact hr
  rw [update_fst, crossCheck_of_crossed _ _ _ _ hm,
    (pruneCheck_x _ _ _).1, (pruneCheck_x _ _ _).2.1,
    pruneCheck_shouldRemove, hs, hm]
  simp

/-- A sequence of per-frame updates (each frame carries its `deltaTime`
and random draws). -/
def updateRun (W H : ℚ) (env : MathEnv) :
    List (ℚ × Rng) → Butterfly → Butterfly
  | [], b => b
  | (dt, rng) :: steps, b =>
    updateRun W H env steps (b.update dt W H env rng).1

theorem updateRun_crossed_mono (W H : ℚ) (env : MathEnv) :
    ∀ (steps : List (ℚ × Rng)) (b : Butterfly),
      b.hasCrossedScreen = true →
      (updateRun W H env steps b).hasCrossedScreen = true
  | [], b, h => h
  | (dt, rng) :: steps, b, h =>
    updateRun_crossed_mono W H env steps _
      (update_crossed_mono b dt W H env rng h)

theorem updateRun_remove_crossed (W H : ℚ) (env : MathEnv) :
    ∀ (steps : List (ℚ × Rng)) (b : Butterfly),
      b.shouldRemove = false →
      (updateRun W H env steps b).shouldRemove = true →
      (updateRun W H env steps b).hasCrossedScreen = true := by
  intro steps
  induction steps with
  | nil =>
    intro b h0 h1
    rw [updateRun] at h1
    rw [updateRun]
    rw [h1] at h0
    exact absurd h0 (by simp)
  | cons step steps ih =>
    intro b h0 h1
    obtain ⟨dt, rng⟩ := step
    rw [updateRun] at h1 ⊢
    by_cases hnext : (b.update dt W H env rng).1.shouldRemove = true
    · rcases update_remove_crossed b dt W H env rng hnext with hc | hc
      · rw [hc] at h0; exact absurd h0 (by simp)
      · exact updateRun_crossed_mono W H env steps _ hc
    · exact ih _ (by simpa using hnext) h1

/-- C5: a butterfly that has never crossed the visible screen is never
flagged for removal by any sequence of updates, however far outside the
canvas it travels; once `hasCrossedScreen` is true, an update flags it
exactly when the post-move position exceeds the canvas bounds by the
100 px margin on some side. -/
theorem c5_removal_correctness (b : Butterfly) (W H : ℚ)
    (env : MathEnv) :
    (∀ steps : List (ℚ × Rng), b.shouldRemove = false →
      (updateRun W H env steps b).hasCrossedScreen = false →
      (updateRun W H env steps b).shouldRemove = false) ∧
    (∀ (dt : ℚ) (rng : Rng), b.hasCrossedScreen = true →
      b.shouldRemove = false →
      ((b.update dt W H env rng).1.shouldRemove = true ↔
        outOfMargin (b.update dt W H env rng).1.x
          (b.update dt W H env rng).1.y W H)) := by
  constructor
  · intro steps h0 hnc
    by_cases hr : (updateRun W H env steps b).shouldRemove = true
    · rw [updateRun_remove_crossed W H env steps b h0 hr] at hnc
      exact absurd hnc (by simp)
    · simpa using hr
  · intro dt rng h hr
    exact update_remove_iff b dt W H env rng h hr

/-- Witness for C5: a concrete uncrossed butterfly far off screen stays
unremoved, and a crossed one at the origin is not flagged. -/
theorem c5_removal_correctness_witness :
    (Butterfly.create 1).shouldRemove = false ∧
    (updateRun 800 600 envC [(1000, rngC)]
      (Butterfly.create 1)).hasCrossedScreen = false ∧
    (updateRun 800 600 envC [(1000, rngC)]
      (Butterfly.create 1)).shouldRemove = false := by
  have h1 : (updateRun 800 600 envC [(1000, rngC)]
      (Butterfly.create 1)).hasCrossedScreen = false := by
    simp [updateRun, Butterfly.update, Butterfly.flap, Butterfly.wobble,
      Butterfly.integrate, Butterfly.crossCheck, Butterfly.pruneCheck,
      Butterfly.create, envC, rngC, Rng.next]
  exact ⟨rfl, h1,
    (c5_removal_correctness (Butterfly.create 1) 800 600 envC).1
      [(1000, rngC)] rfl h1⟩

/-! ### Click-handling lemmas -/

theorem clickGo_cons (x y : ℚ) (env : MathEnv) (b : Butterfly)
    (l : List Butterfly) (rng : Rng) :
    clickGo x y env (b :: l) rng =
      if (b.checkCatch x y env rng).1 then
        (l, some (b.checkCatch x y env rng).2.1,
          (b.checkCatch x y env rng).2.2)
      else
        ((b.checkCatch x y env rng).2.1 ::
            (clickGo x y env l (b.checkCatch x y env rng).2.2).1,
          (clickGo x y env l (b.checkCatch x y env rng).2.2).2.1,
          (clickGo x y env l (b.checkCatch x y env rng).2.2).2.2) := rfl

/-- A successful pass of the catch loop removes exactly one butterfly. -/
theorem clickGo_some_length (x y : ℚ) (env : MathEnv) :
    ∀ (l : List Butterfly) (rng : Rng) (l' : List Butterfly)
      (c : Butterfly) (rng' : Rng),
      clickGo x y env l rng = (l', some c, rng') →
      l'.length + 1 = l.length := by
  intro l
  induction l with
  | nil =>
    intro rng l' c rng' h
    exact absurd h (by simp [clickGo])
  | cons b rest ih =>
    intro rng l' c rng' h
    rw [clickGo_cons] at h
    split_ifs at h with hc
    · simp only [Prod.mk.injEq] at h
      rw [← h.1]
      simp
    · simp only [Prod.mk.injEq] at h
      have := ih (b.checkCatch x y env rng).2.2
        (clickGo x y env rest (b.checkCatch x y env rng).2.2).1 c
        (clickGo x y env rest (b.checkCatch x y env rng).2.2).2.2
        (by rw [← h.2.1])
      rw [← h.1]
      simp only [List.length_cons]
      omega

/-- If no butterfly passes the distance test, the catch loop changes
nothing and consumes no random. -/
theorem clickGo_miss_all (x y : ℚ) (env : MathEnv) :
    ∀ (l : List Butterfly) (rng : Rng),
      (∀ b ∈ l, b.catchTest x y env = false) →
      clickGo x y env l rng = (l, none, rng) := by
  intro l
  induction l with
  | nil => intro rng _; rfl
  | cons b rest ih =>
    intro rng hm
    rw [clickGo_cons, checkCatch_miss b x y env rng (hm b (by simp))]
    simp only
    rw [ih rng fun b' hb' => hm b' (by simp [hb'])]
    simp

/-- `Game.handleClick` in normal play, expressed through the catch
loop. -/
theorem handleClick_eq (g : GameState) (x y : ℚ) (env : MathEnv)
    (rng : Rng) (h1 : g.isLevelTransitioning = false)
    (h2 : g.countdownActive = false) (h3 : g.showingStartScreen = false)
    (h4 : g.showingInstructions = false)
    (h5 : g.showingSummaryScreen = false) :
    Game.handleClick g x y env rng =
      match (clickGo x y env g.butterflies.reverse rng).2.1 with
      | none =>
        ({ g with butterflies :=
            (clickGo x y env g.butterflies.reverse rng).1.reverse },
          (clickGo x y env g.butterflies.reverse rng).2.2)
      | some c =>
        ({ g with
            score := g.score + c.level * 10
            butterflyCounts :=
              Function.update g.butterflyCounts c.level
                (g.butterflyCounts c.level + 1)
            butterflies :=
              (clickGo x y env g.butterflies.reverse rng).1.reverse },
          (clickGo x y env g.butterflies.reverse rng).2.2) := by
  unfold Game.handleClick
  rw [if_neg (by simp [h1, h2]), if_neg (by simp [h3, h4, h5])]

/-- C3: in normal play, when the hit-test (most-recently-spawned first,
stopping at the first `checkCatch` success) catches a butterfly `c`, the
click adds exactly `10 * c.level` points, increments exactly
`butterflyCounts c.level` by one, and removes exactly one butterfly; a
click that reaches no butterfly changes nothing. -/
theorem c3_click_scoring (g : GameState) (x y : ℚ) (env : MathEnv)
    (rng : Rng) (h1 : g.isLevelTransitioning = false)
    (h2 : g.countdownActive = false) (h3 : g.showingStartScreen = false)
    (h4 : g.showingInstructions = false)
    (h5 : g.showingSummaryScreen = false) :
    (∀ (bs : List Butterfly) (c : Butterfly) (rng' : Rng),
      clickGo x y env g.butterflies.reverse rng = (bs, some c, rng') →
      (Game.handleClick g x y env rng).1.score = g.score + c.level * 10 ∧
      (Game.handleClick g x y env rng).1.butterflyCounts c.level =
        g.butterflyCounts c.level + 1 ∧
      (∀ l, l ≠ c.level →
        (Game.handleClick g x y env rng).1.butterflyCounts l =
          g.butterflyCounts l) ∧
      (Game.handleClick g x y env rng).1.butterflies.length + 1 =
        g.butterflies.length) ∧
    ((∀ b ∈ g.butterflies, b.catchTest x y env = false) →
      Game.handleClick g x y env rng = (g, rng)) := by
  constructor
  · intro bs c rng' hgo
    have he := handleClick_eq g x y env rng h1 h2 h3 h4 h5
    rw [hgo] at he
    simp only at he
    rw [he]
    refine ⟨rfl, ?_, ?_, ?_⟩
    · exact Function.update_same ..
    · intro l hl
      exact Function.update_noteq hl _ _
    · have hlen := clickGo_some_length x y env g.butterflies.reverse rng
        bs c rng' hgo
      simpa using hlen
  · intro hmiss
    have hgo := clickGo_miss_all x y env g.butterflies.reverse rng
      fun b hb => hmiss b (List.mem_reverse.mp hb)
    have he := handleClick_eq g x y env rng h1 h2 h3 h4 h5
    rw [hgo] at he
    simp only at he
    rw [he, List.reverse_reverse]

/-- Witness for C3: a click over an empty collection leaves the state
unchanged. -/
theorem c3_click_scoring_witness :
    Game.handleClick playState 5 5 envC rngC = (playState, rngC) :=
  (c3_click_scoring playState 5 5 envC rngC rfl rfl rfl rfl rfl).2
    (by simp [playState, Game.startState])

/-- C10 (implicit): a click that hits a boss in range without depleting
its health does not stop the hit-test loop: the same click damages the
boss (health −1, speed ×1.1, fresh random heading) and still catches an
earlier-spawned in-range non-boss butterfly, with its score and count
updates. -/
theorem c10_boss_hit_does_not_stop_loop (g : GameState)
    (nb boss : Butterfly) (x y : ℚ) (env : MathEnv) (rng : Rng)
    (h1 : g.isLevelTransitioning = false) (h2 : g.countdownActive = false)
    (h3 : g.showingStartScreen = false) (h4 : g.showingInstructions = false)
    (h5 : g.showingSummaryScreen = false)
    (hbs : g.butterflies = [nb, boss])
    (hB : boss.isBoss = true) (hH : boss.health = 5)
    (hCB : boss.catchTest x y env = true)
    (hNB : nb.isBoss = false) (hCN : nb.catchTest x y env = true) :
    (Game.handleClick g x y env rng).1.score = g.score + nb.level * 10 ∧
    (Game.handleClick g x y env rng).1.butterflyCounts nb.level =
      g.butterflyCounts nb.level + 1 ∧
    (Game.handleClick g x y env rng).1.butterflies =
      [bossDamaged boss env rng] ∧
    (bossDamaged boss env rng).health = 4 ∧
    (bossDamaged boss env rng).speed = boss.speed * 1.1 ∧
    (bossDamaged boss env rng).direction = rng.next.1 * env.pi * 2 := by
  have hstep2 : clickGo x y env [nb] rng.next.2 =
      ([], some nb, rng.next.2) := by
    rw [clickGo_cons, checkCatch_nonBoss nb x y env _ hNB]
    simp [hCN, clickGo]
  have hgo : clickGo x y env g.butterflies.reverse rng =
      ([bossDamaged boss env rng], some nb, rng.next.2) := by
    rw [hbs]
    show clickGo x y env [boss, nb] rng = _
    rw [clickGo_cons,
      checkCatch_boss_surviving boss x y env rng hB hCB
        (by rw [hH]; norm_num)]
    simp only [Bool.false_eq_true, if_false]
    rw [hstep2]
  have he := handleClick_eq g x y env rng h1 h2 h3 h4 h5
  rw [hgo] at he
  simp only at he
  rw [he]
  refine ⟨rfl, Function.update_same .., by simp, ?_, rfl, rfl⟩
  rw [bossDamaged_health, hH]
  norm_num

/-- Witness for C10 at concrete butterflies (both in range under
`envC`). -/
theorem c10_boss_hit_does_not_stop_loop_witness :
    (Game.handleClick
      { playState with
          butterflies := [Butterfly.create 9,
            { Butterfly.create 10 with isBoss := true, health := 5 }] }
      0 0 envC rngC).1.score = playState.score +
        (Butterfly.create 9).level * 10 := by
  have hCB : ({ Butterfly.create 10 with isBoss := true, health := 5 } :
      Butterfly).catchTest 0 0 envC = true := by
    simp only [Butterfly.catchTest, Butterfly.create, envC, netRadius]
    norm_num
  have hCN : (Butterfly.create 9).catchTest 0 0 envC = true := by
    simp only [Butterfly.catchTest, Butterfly.create, envC, netRadius]
    norm_num
  exact (c10_boss_hit_does_not_stop_loop _ (Butterfly.create 9)
    { Butterfly.create 10 with isBoss := true, health := 5 }
    0 0 envC rngC rfl rfl rfl rfl rfl rfl rfl rfl hCB rfl hCN).1

/-! ### Level-progression lemmas -/

theorem levelComplete_level (g : GameState) (ft : Bool) (now : ℚ) :
    (levelComplete g ft now).currentLevel = g.currentLevel ∨
      ((levelComplete g ft now).currentLevel = g.currentLevel + 1 ∧
        g.currentLevel < maxLevel) := by
  simp only [levelComplete, gameComplete]
  split_ifs with h1 h2
  · left; rfl
  · right; exact ⟨rfl, h2⟩
  · left; rfl

theorem levelComplete_effective (g : GameState) (ft : Bool) (now : ℚ)
    (h1 : g.isLevelTransitioning = false)
    (h2 : g.currentLevel < maxLevel) :
    (levelComplete g ft now).currentLevel = g.currentLevel + 1 := by
  simp [levelComplete, h1, h2]

theorem progressionCheck_level (g : GameState) (now : ℚ) :
    (progressionCheck g now).1.currentLevel = g.currentLevel ∨
      ((progressionCheck g now).1.currentLevel = g.currentLevel + 1 ∧
        g.currentLevel < maxLevel) := by
  simp only [progressionCheck]
  split_ifs with hA hB
  · simpa using levelComplete_level g true now
  · simpa using levelComplete_level g true now
  · left; rfl

theorem opportunisticSpawn_level (g : GameState) (W H : ℚ)
    (env : MathEnv) (rng : Rng) :
    (opportunisticSpawn g W H env rng).1.currentLevel = g.currentLevel := by
  simp only [opportunisticSpawn, Rng.next]
  split_ifs <;> rfl

theorem update_unfold (g : GameState) (dt now W H : ℚ) (env : MathEnv)
    (rng : Rng) (h1 : g.isLevelTransitioning = false)
    (h2 : g.countdownActive = false) :
    Game.update g dt now W H env rng =
      (if (progressionCheck
            { g with
              butterflies :=
                (updateButterfliesGo dt W H env g.butterflies.reverse
                  rng).1.reverse
              levelTimer := g.levelTimer + dt } now).2 = true then
        ((progressionCheck
            { g with
              butterflies :=
                (updateButterfliesGo dt W H env g.butterflies.reverse
                  rng).1.reverse
              levelTimer := g.levelTimer + dt } now).1,
          (updateButterfliesGo dt W H env g.butterflies.reverse rng).2)
      else
        opportunisticSpawn
          (progressionCheck
            { g with
              butterflies :=
                (updateButterfliesGo dt W H env g.butterflies.reverse
                  rng).1.reverse
              levelTimer := g.levelTimer + dt } now).1 W H env
          (updateButterfliesGo dt W H env g.butterflies.reverse rng).2) := by
  unfold Game.update
  rw [if_neg (by simp [h1]), if_neg (by simp [h2])]

theorem update_level (g : GameState) (dt now W H : ℚ) (env : MathEnv)
    (rng : Rng) :
    (Game.update g dt now W H env rng).1.currentLevel = g.currentLevel ∨
      ((Game.update g dt now W H env rng).1.currentLevel =
          g.currentLevel + 1 ∧ g.currentLevel < maxLevel) := by
  by_cases h1 : g.isLevelTransitioning = true
  · left
    simp [Game.update, h1]
  · by_cases h2 : g.countdownActive = true
    · left
      simp [Game.update, h2]
    · rw [update_unfold g dt now W H env rng (by simpa using h1)
        (by simpa using h2)]
      have hp := progressionCheck_level
        { g with
          butterflies :=
            (updateButterfliesGo dt W H env g.butterflies.reverse
              rng).1.reverse
          levelTimer := g.levelTimer + dt } now
      split_ifs with hearly
      · simpa using hp
      · rw [opportunisticSpawn_level]
        simpa using hp

theorem handleClick_level (g : GameState) (x y : ℚ) (env : MathEnv)
    (rng : Rng) :
    (Game.handleClick g x y env rng).1.currentLevel = g.currentLevel := by
  unfold Game.handleClick
  split_ifs
  · rfl
  · rfl
  · rcases hq : clickGo x y env g.butterflies.reverse rng
      with ⟨bs, caught, rng'⟩
    cases caught <;> rfl

theorem actuallySpawn_level (g : GameState) (W H : ℚ) (env : MathEnv)
    (rng : Rng) :
    (actuallySpawnButterflies g W H env rng).1.currentLevel =
      g.currentLevel := by
  unfold actuallySpawnButterflies
  dsimp only
  split_ifs <;> rfl

theorem spawnButterflies_level (g : GameState) (W H : ℚ) (env : MathEnv)
    (rng : Rng) :
    (spawnButterflies g W H env rng).1.currentLevel = g.currentLevel := by
  show (actuallySpawnButterflies { g with hasPlayedInitialCountdown := true }
    W H env rng).1.currentLevel = g.currentLevel
  rw [actuallySpawn_level]

theorem startNextLevel_level (g : GameState) (W H : ℚ) (env : MathEnv)
    (rng : Rng) :
    (startNextLevel g W H env rng).1.currentLevel = g.currentLevel := by
  show (spawnButterflies
    { g with currentWave := 0, isWaveTransitioning := false,
             waveTimer := 0, levelTimer := 0 }
    W H env rng).1.currentLevel = g.currentLevel
  rw [spawnButterflies_level]

theorem countdownTick_level (g : GameState) (W H : ℚ) (env : MathEnv)
    (rng : Rng) :
    (countdownTick g W H env rng).1.currentLevel = g.currentLevel := by
  unfold countdownTick
  dsimp only
  split_ifs with h1 h2
  · rfl
  · rw [spawnButterflies_level]
  · rfl

theorem applyOp_level (g : GameState) (op : Op) :
    (applyOp g op).currentLevel = g.currentLevel ∨
      ((applyOp g op).currentLevel = g.currentLevel + 1 ∧
        g.currentLevel < maxLevel) := by
  cases op with
  | upd dt now W H env rng => exact update_level g dt now W H env rng
  | click x y env rng => exact Or.inl (handleClick_level g x y env rng)
  | complete ft now => exact levelComplete_level g ft now
  | next W H env rng => exact Or.inl (startNextLevel_level g W H env rng)
  | tick W H env rng => exact Or.inl (countdownTick_level g W H env rng)
  | fire s => exact Or.inl rfl

theorem applyOp_mono (g : GameState) (op : Op) :
    g.currentLevel ≤ (applyOp g op).currentLevel := by
  rcases applyOp_level g op with h | ⟨h, _⟩ <;> omega

theorem applyOp_le_max (g : GameState) (op : Op)
    (h : g.currentLevel ≤ maxLevel) :
    (applyOp g op).currentLevel ≤ maxLevel := by
  rcases applyOp_level g op with h1 | ⟨h1, h2⟩ <;> omega

theorem foldl_le_max :
    ∀ (ops : List Op) (g : GameState), g.currentLevel ≤ maxLevel →
      (ops.foldl applyOp g).currentLevel ≤ maxLevel
  | [], g, h => h
  | op :: ops, g, h =>
    foldl_le_max ops (applyOp g op) (applyOp_le_max g op h)

theorem sessionState_le_max (ops : List Op) :
    (sessionState ops).currentLevel ≤ maxLevel :=
  foldl_le_max ops Game.startState (by norm_num [Game.startState, maxLevel])

/-- C1: along any session trace from `Game.start()`, `currentLevel` is
non-decreasing step by step, never exceeds `maxLevel` (10), and every
effective `levelComplete` call (one not ignored by the transitioning
guard) with `currentLevel < maxLevel` increments it by exactly 1. -/
theorem c1_level_monotone (ops : List Op) (op : Op) (ft : Bool)
    (now : ℚ) :
    (sessionState ops).currentLevel ≤
      (applyOp (sessionState ops) op).currentLevel ∧
    (applyOp (sessionState ops) op).currentLevel ≤ maxLevel ∧
    maxLevel = 10 ∧
    ((sessionState ops).isLevelTransitioning = false →
      (sessionState ops).currentLevel < maxLevel →
      (levelComplete (sessionState ops) ft now).currentLevel =
        (sessionState ops).currentLevel + 1) :=
  ⟨applyOp_mono _ op,
   applyOp_le_max _ op (sessionState_le_max ops),
   rfl,
   fun h1 h2 => levelComplete_effective _ ft now h1 h2⟩

/-- Witness for C1: the first effective `levelComplete` of a fresh
session takes the level from 1 to 2. -/
theorem c1_level_monotone_witness :
    (levelComplete (sessionState []) false 0).currentLevel =
      (sessionState []).currentLevel + 1 :=
  (c1_level_monotone [] (Op.complete false 0) false 0).2.2.2 rfl
    (by norm_num [sessionState, Game.startState, maxLevel])


/-- C7: the level-10 spawn schedules exactly one boss (2.5× size, 0.7×
catch radius, 0.8× speed, health 5, `isBoss`) with a 1000 ms delay, plus
exactly 8 level-9 minions on a circle of radius 150 around the canvas
center, minion `i` at angle `2π·i/8` heading outward with a
`500 + 100·i` ms delay — and nothing else. -/
theorem c7_boss_spawn_layout (W H : ℚ) (env : MathEnv) (rng : Rng) :
    ∃ boss minions,
      (spawnBossButterfly W H env rng).1 =
        ({ delay := 1000, butterfly := boss } : Scheduled) :: minions ∧
      boss.width = (Butterfly.create 10).width * 2.5 ∧
      boss.height = (Butterfly.create 10).height * 2.5 ∧
      boss.catchRadius = (Butterfly.create 10).catchRadius * 0.7 ∧
      boss.speed = (Butterfly.create 10).speed * 0.8 ∧
      boss.health = 5 ∧ boss.isBoss = true ∧
      boss.x = W / 2 ∧ boss.y = H / 2 ∧
      minions.length = 8 ∧
      ∀ i (h : i < minions.length),
        (minions.get ⟨i, h⟩).delay = 500 + (i : ℚ) * 100 ∧
        (minions.get ⟨i, h⟩).butterfly.level = 9 ∧
        (minions.get ⟨i, h⟩).butterfly.x =
          W / 2 + env.cos (((i : ℚ) / 8) * env.pi * 2) * 150 ∧
        (minions.get ⟨i, h⟩).butterfly.y =
          H / 2 + env.sin (((i : ℚ) / 8) * env.pi * 2) * 150 ∧
        (minions.get ⟨i, h⟩).butterfly.direction =
          ((i : ℚ) / 8) * env.pi * 2 ∧
        (minions.get ⟨i, h⟩).butterfly.vx =
          env.cos ((minions.get ⟨i, h⟩).butterfly.direction) *
            (minions.get ⟨i, h⟩).butterfly.speed ∧
        (minions.get ⟨i, h⟩).butterfly.vy =
          env.sin ((minions.get ⟨i, h⟩).butterfly.direction) *
            (minions.get ⟨i, h⟩).butterfly.speed := by
  unfold spawnBossButterfly
  dsimp only
  refine ⟨_, _, rfl, rfl, rfl, rfl, rfl, rfl, rfl, rfl, rfl, ?_, ?_⟩
  · rw [List.length_map, List.length_range]
  · intro i h
    rw [List.get_eq_getElem]
    rw [List.getElem_map]
    rw [List.getElem_range]
    exact ⟨rfl, rfl, rfl, rfl, rfl, rfl, rfl⟩

/-- Witness for C7: the first minion of a concrete boss spawn. -/
theorem c7_boss_spawn_layout_witness :
    ∃ boss minions,
      (spawnBossButterfly 800 600 envC rngC).1 =
        ({ delay := 1000, butterfly := boss } : Scheduled) :: minions ∧
      boss.health = 5 ∧ minions.length = 8 ∧
      ∀ h : 0 < minions.length,
        (minions.get ⟨0, h⟩).delay = 500 := by
  obtain ⟨boss, minions, heq, _, _, _, _, hh, _, _, _, hlen, hget⟩ :=
    c7_boss_spawn_layout 800 600 envC rngC
  refine ⟨boss, minions, heq, hh, hlen, fun h => ?_⟩
  have := (hget 0 h).1
  simpa using this

/-! ### Spawn-wave and countdown lemmas -/

theorem position_level (b : Butterfly) (formation : String)
    (index count : ℕ) (spawnSide : Option ℕ) (W H : ℚ) (env : MathEnv)
    (rng : Rng) :
    (positionButterflyInFormation b formation index count spawnSide W H
      env rng).1.level = b.level := by
  unfold positionButterflyInFormation
  rcases spawnSide with _ | s <;> dsimp only <;> split_ifs <;> rfl

theorem spawnButterflyAt_level (s : ℕ) (f : String) (i c : ℕ) (W H : ℚ)
    (env : MathEnv) (rng : Rng) :
    (spawnButterflyAt s f i c W H env rng).1.level = s := by
  have h : (spawnButterflyAt s f i c W H env rng).1.level =
      (positionButterflyInFormation (Butterfly.create s) f i c none W H
        env rng).1.level := rfl
  rw [h, position_level]
  rfl

theorem spawnWaveGo_cons (s : ℕ) (f : String) (c : ℕ) (W H : ℚ)
    (env : MathEnv) (i : ℕ) (rest : List ℕ) (rng : Rng) :
    spawnWaveGo s f c W H env (i :: rest) rng =
      ((⟨(i : ℚ) * 50, (spawnButterflyAt s f i c W H env rng).1⟩ :
          Scheduled) ::
          (spawnWaveGo s f c W H env rest
            (spawnButterflyAt s f i c W H env rng).2).1,
        (spawnWaveGo s f c W H env rest
          (spawnButterflyAt s f i c W H env rng).2).2) := rfl

theorem spawnWaveGo_spec (s : ℕ) (f : String) (c : ℕ) (W H : ℚ)
    (env : MathEnv) :
    ∀ (is : List ℕ) (rng : Rng),
      (spawnWaveGo s f c W H env is rng).1.length = is.length ∧
      ∀ x ∈ (spawnWaveGo s f c W H env is rng).1,
        x.butterfly.level = s := by
  intro is
  induction is with
  | nil =>
    intro rng
    exact ⟨rfl, by intro x hx; simp [spawnWaveGo] at hx⟩
  | cons i rest ih =>
    intro rng
    rw [spawnWaveGo_cons]
    constructor
    · simp [(ih _).1]
    · intro x hx
      simp only [List.mem_cons] at hx
      rcases hx with hx | hx
      · rw [hx]
        exact spawnButterflyAt_level s f i c W H env rng
      · exact (ih _).2 x hx

theorem actuallySpawn_state (g : GameState) (W H : ℚ) (env : MathEnv)
    (rng : Rng) :
    (actuallySpawnButterflies g W H env rng).1 =
      { g with levelTimer := 0 } := by
  unfold actuallySpawnButterflies
  dsimp only
  split_ifs <;> rfl

theorem actuallySpawn_sch (g : GameState) (W H : ℚ) (env : MathEnv)
    (rng : Rng) (h : min (max g.currentLevel 1) maxLevel ≠ 10) :
    (actuallySpawnButterflies g W H env rng).2.1 =
      (spawnWaveGo (min (max g.currentLevel 1) maxLevel)
        (formations.getD
          ((min (max g.currentLevel 1) maxLevel - 1) % formations.length)
          "random") 15 W H env (List.range 15) rng).1 := by
  unfold actuallySpawnButterflies
  dsimp only
  rw [if_neg h]

theorem spawnButterflies_state (g : GameState) (W H : ℚ) (env : MathEnv)
    (rng : Rng) :
    (spawnButterflies g W H env rng).1 =
      { g with hasPlayedInitialCountdown := true, levelTimer := 0 } := by
  show (actuallySpawnButterflies
    { g with hasPlayedInitialCountdown := true } W H env rng).1 = _
  rw [actuallySpawn_state]

theorem spawnButterflies_sch (g : GameState) (W H : ℚ) (env : MathEnv)
    (rng : Rng) (h : min (max g.currentLevel 1) maxLevel ≠ 10) :
    (spawnButterflies g W H env rng).2.1 =
      (spawnWaveGo (min (max g.currentLevel 1) maxLevel)
        (formations.getD
          ((min (max g.currentLevel 1) maxLevel - 1) % formations.length)
          "random") 15 W H env (List.range 15) rng).1 := by
  show (actuallySpawnButterflies
    { g with hasPlayedInitialCountdown := true } W H env rng).2.1 = _
  rw [actuallySpawn_sch { g with hasPlayedInitialCountdown := true }
    W H env rng h]

theorem runTicks_succ (W H : ℚ) (env : MathEnv) (n : ℕ) (g : GameState)
    (rng : Rng) :
    runTicks W H env (n + 1) g rng =
      ((runTicks W H env n (countdownTick g W H env rng).1
          (countdownTick g W H env rng).2.2).1,
        (countdownTick g W H env rng).2.1 ++
          (runTicks W H env n (countdownTick g W H env rng).1
            (countdownTick g W H env rng).2.2).2.1,
        (runTicks W H env n (countdownTick g W H env rng).1
          (countdownTick g W H env rng).2.2).2.2) := rfl

theorem countdownTick_cleared (g : GameState) (W H : ℚ) (env : MathEnv)
    (rng : Rng) (h : g.intervalCleared = true) :
    countdownTick g W H env rng = (g, [], rng) := by
  unfold countdownTick
  rw [if_pos h]

theorem runTicks_cleared (W H : ℚ) (env : MathEnv) :
    ∀ (n : ℕ) (g : GameState) (rng : Rng), g.intervalCleared = true →
      runTicks W H env n g rng = (g, [], rng)
  | 0, g, rng, _ => rfl
  | n + 1, g, rng, h => by
    rw [runTicks_succ, countdownTick_cleared g W H env rng h]
    dsimp only
    rw [runTicks_cleared W H env n g rng h]
    rfl

/-- C8: while the countdown is active, `handleClick` and the whole
gameplay `update` (kinematics, level timer, level-completion check) are
no-ops returning the state unchanged; and once the countdown interval
has ticked down to 0 (any `n ≥ 3` firings), `countdownActive` is false,
`levelTimer` is 0, and exactly one level-1 wave of 15 butterflies has
been scheduled in total. -/
theorem c8_countdown_gating (g : GameState) (x y dt now W H : ℚ)
    (env : MathEnv) (rng rng' : Rng) (n : ℕ) :
    (g.countdownActive = true →
      Game.handleClick g x y env rng' = (g, rng')) ∧
    (g.countdownActive = true →
      Game.update g dt now W H env rng' = (g, rng')) ∧
    (3 ≤ n →
      (runTicks W H env n Game.startState rng).1.countdownActive = false ∧
      (runTicks W H env n Game.startState rng).1.levelTimer = 0 ∧
      (runTicks W H env n Game.startState rng).1.currentLevel = 1 ∧
      (runTicks W H env n Game.startState rng).2.1.length = 15 ∧
      ∀ s ∈ (runTicks W H env n Game.startState rng).2.1,
        s.butterfly.level = 1) := by
  refine ⟨?_, ?_, ?_⟩
  · intro h
    unfold Game.handleClick
    rw [if_pos (Or.inr h)]
  · intro h
    unfold Game.update
    by_cases h1 : g.isLevelTransitioning = true
    · rw [if_pos h1]
    · rw [if_neg h1, if_pos h]
  · intro hn
    obtain ⟨m, rfl⟩ : ∃ m, n = m + 3 := ⟨n - 3, by omega⟩
    have e1 : countdownTick Game.startState W H env rng =
        ({ Game.startState with countdownTime := 2 }, [], rng) := rfl
    have e2 : countdownTick { Game.startState with countdownTime := 2 }
        W H env rng =
        ({ Game.startState with countdownTime := 1 }, [], rng) := rfl
    have e3 : countdownTick { Game.startState with countdownTime := 1 }
        W H env rng =
        spawnButterflies
          { Game.startState with
              countdownTime := 0
              intervalCleared := true
              countdownActive := false
              levelTimer := 0 } W H env rng := by
      unfold countdownTick
      dsimp only [Game.startState]
      rw [if_neg (by decide), if_pos (by decide)]
      congr 1
    rw [show m + 3 = m + 2 + 1 from rfl, runTicks_succ, e1]
    dsimp only
    rw [show m + 2 = m + 1 + 1 from rfl, runTicks_succ, e2]
    dsimp only
    rw [runTicks_succ, e3]
    dsimp only
    rw [spawnButterflies_state]
    rw [runTicks_cleared W H env m _ _ rfl]
    dsimp only
    refine ⟨rfl, rfl, rfl, ?_, ?_⟩
    · simp only [List.nil_append, List.append_nil]
      rw [spawnButterflies_sch _ _ _ _ _ (by decide),
        (spawnWaveGo_spec _ _ _ _ _ _ (List.range 15) rng).1,
        List.length_range]
    · intro s hs
      simp only [List.nil_append, List.append_nil] at hs
      rw [spawnButterflies_sch _ _ _ _ _ (by decide)] at hs
      have := (spawnWaveGo_spec _ _ _ _ _ _ (List.range 15) rng).2 s hs
      simpa [Game.startState, maxLevel] using this

/-- Witness for C8: a fresh session's countdown suppresses a click, and
three interval firings schedule exactly the 15-butterfly level-1 wave. -/
theorem c8_countdown_gating_witness :
    Game.startState.countdownActive = true ∧
    Game.handleClick Game.startState 0 0 envC rngC =
      (Game.startState, rngC) ∧
    (runTicks 800 600 envC 3 Game.startState rngC).1.countdownActive =
      false ∧
    (runTicks 800 600 envC 3 Game.startState rngC).2.1.length = 15 := by
  have h := c8_countdown_gating Game.startState 0 0 0 0 800 600 envC rngC
    rngC 3
  exact ⟨rfl, h.1 rfl, (h.2.2 (by norm_num)).1,
    (h.2.2 (by norm_num)).2.2.2.1⟩

/-! ### Spawn-positioning lemmas (formation spawn) -/

/-- The crossing-point x drawn by `positionButterflyInFormation`
(`width * (0.2 + Math.random() * 0.6)`). -/
def crossingXOf (W : ℚ) (rng : Rng) : ℚ :=
  W * (0.2 + rng.stream rng.idx * 0.6)

/-- The crossing-point y (`height * (0.2 + Math.random() * 0.6)`). -/
def crossingYOf (H : ℚ) (rng : Rng) : ℚ :=
  H * (0.2 + rng.stream (rng.idx + 1) * 0.6)

/-- The direction jitter (`(Math.random() - 0.5) * Math.PI / 4`), drawn
after the two crossing draws and the one edge-position draw. -/
def jitterOf (env : MathEnv) (rng : Rng) : ℚ :=
  (rng.stream (rng.idx + 3) - 0.5) * env.pi / 4

/-- The final heading: `atan2` from the spawn point to the crossing
point, plus the jitter. -/
def headingOf (x0 y0 W H : ℚ) (env : MathEnv) (rng : Rng) : ℚ :=
  env.atan2 (crossingYOf H rng - y0) (crossingXOf W rng - x0) +
    jitterOf env rng

/-- The butterfly produced by `positionButterflyInFormation` for an
explicit spawn edge. -/
def spawnResult (b : Butterfly) (f : String) (i c s : ℕ) (W H : ℚ)
    (env : MathEnv) (rng : Rng) : Butterfly :=
  (positionButterflyInFormation b f i c (some s) W H env rng).1

theorem position_eq0 (b : Butterfly) (f : String) (i c : ℕ) (W H : ℚ)
    (env : MathEnv) (rng : Rng) :
    positionButterflyInFormation b f i c (some 0) W H env rng =
      ({ b with
          x := W * rng.stream (rng.idx + 2)
          y := -b.height * 2
          direction := headingOf (W * rng.stream (rng.idx + 2))
            (-b.height * 2) W H env rng
          vx := env.cos (headingOf (W * rng.stream (rng.idx + 2))
            (-b.height * 2) W H env rng) * b.speed
          vy := env.sin (headingOf (W * rng.stream (rng.idx + 2))
            (-b.height * 2) W H env rng) * b.speed
          crossingPoint := some (crossingXOf W rng, crossingYOf H rng)
          movementPattern := "direct" },
        ⟨rng.stream, rng.idx + 4⟩) := rfl

theorem position_eq1 (b : Butterfly) (f : String) (i c : ℕ) (W H : ℚ)
    (env : MathEnv) (rng : Rng) :
    positionButterflyInFormation b f i c (some 1) W H env rng =
      ({ b with
          x := W + b.width
          y := H * rng.stream (rng.idx + 2)
          direction := headingOf (W + b.width)
            (H * rng.stream (rng.idx + 2)) W H env rng
          vx := env.cos (headingOf (W + b.width)
            (H * rng.stream (rng.idx + 2)) W H env rng) * b.speed
          vy := env.sin (headingOf (W + b.width)
            (H * rng.stream (rng.idx + 2)) W H env rng) * b.speed
          crossingPoint := some (crossingXOf W rng, crossingYOf H rng)
          movementPattern := "direct" },
        ⟨rng.stream, rng.idx + 4⟩) := rfl

theorem position_eq2 (b : Butterfly) (f : String) (i c : ℕ) (W H : ℚ)
    (env : MathEnv) (rng : Rng) :
    positionButterflyInFormation b f i c (some 2) W H env rng =
      ({ b with
          x := W * rng.stream (rng.idx + 2)
          y := H + b.height
          direction := headingOf (W * rng.stream (rng.idx + 2))
            (H + b.height) W H env rng
          vx := env.cos (headingOf (W * rng.stream (rng.idx + 2))
            (H + b.height) W H env rng) * b.speed
          vy := env.sin (headingOf (W * rng.stream (rng.idx + 2))
            (H + b.height) W H env rng) * b.speed
          crossingPoint := some (crossingXOf W rng, crossingYOf H rng)
          movementPattern := "direct" },
        ⟨rng.stream, rng.idx + 4⟩) := rfl

theorem position_eq3 (b : Butterfly) (f : String) (i c : ℕ) (W H : ℚ)
    (env : MathEnv) (rng : Rng) :
    positionButterflyInFormation b f i c (some 3) W H env rng =
      ({ b with
          x := -b.width * 2
          y := H * rng.stream (rng.idx + 2)
          direction := headingOf (-b.width * 2)
            (H * rng.stream (rng.idx + 2)) W H env rng
          vx := env.cos (headingOf (-b.width * 2)
            (H * rng.stream (rng.idx + 2)) W H env rng) * b.speed
          vy := env.sin (headingOf (-b.width * 2)
            (H * rng.stream (rng.idx + 2)) W H env rng) * b.speed
          crossingPoint := some (crossingXOf W rng, crossingYOf H rng)
          movementPattern := "direct" },
        ⟨rng.stream, rng.idx + 4⟩) := rfl

/-- Counterexample to C6 as stated: on the right edge the spawn is
offset by only ONE butterfly-width beyond the boundary
(`x = width + butterfly.width`), not two. -/
theorem c6_counterexample :
    (spawnResult (Butterfly.create 1) "line" 0 15 1 800 600 envC
      rngC).x = 800 + (Butterfly.create 1).width ∧
    (Butterfly.create 1).width = 57.5 ∧
    (spawnResult (Butterfly.create 1) "line" 0 15 1 800 600 envC
      rngC).x ≠ 800 + 2 * (Butterfly.create 1).width := by
  refine ⟨?_, ?_, ?_⟩
  · rw [spawnResult, position_eq1]
  · norm_num [Butterfly.create]
  · rw [spawnResult, position_eq1]
    norm_num [Butterfly.create]

/-- C6 as amended: the crossing point is uniform within 20%–80% of each
axis, the perpendicular spawn coordinate is uniform along the chosen
edge, the heading is `atan2` toward the crossing point plus uniform
jitter of at most ±22.5° (`±π/8`, i.e. `π/4` total spread), `vx`/`vy`
come from heading and speed — but the outside offset is twice the
butterfly's size only for the top and left edges; the right and bottom
edges are offset by exactly one butterfly width (resp. height). -/
theorem c6_spawn_positioning (b : Butterfly) (formation : String)
    (index count s : ℕ) (W H : ℚ) (env : MathEnv) (rng : Rng)
    (hs : s < 4) (hW : 0 < W) (hH : 0 < H) (hpi : 0 ≤ env.pi)
    (h0a : 0 ≤ rng.stream rng.idx) (h0b : rng.stream rng.idx < 1)
    (h1a : 0 ≤ rng.stream (rng.idx + 1))
    (h1b : rng.stream (rng.idx + 1) < 1)
    (h3a : 0 ≤ rng.stream (rng.idx + 3))
    (h3b : rng.stream (rng.idx + 3) < 1) :
    (spawnResult b formation index count s W H env rng).crossingPoint =
      some (crossingXOf W rng, crossingYOf H rng) ∧
    0.2 * W ≤ crossingXOf W rng ∧ crossingXOf W rng < 0.8 * W ∧
    0.2 * H ≤ crossingYOf H rng ∧ crossingYOf H rng < 0.8 * H ∧
    (s = 0 →
      (spawnResult b formation index count s W H env rng).x =
        W * rng.stream (rng.idx + 2) ∧
      (spawnResult b formation index count s W H env rng).y =
        -b.height * 2) ∧
    (s = 1 →
      (spawnResult b formation index count s W H env rng).x =
        W + b.width ∧
      (spawnResult b formation index count s W H env rng).y =
        H * rng.stream (rng.idx + 2)) ∧
    (s = 2 →
      (spawnResult b formation index count s W H env rng).x =
        W * rng.stream (rng.idx + 2) ∧
      (spawnResult b formation index count s W H env rng).y =
        H + b.height) ∧
    (s = 3 →
      (spawnResult b formation index count s W H env rng).x =
        -b.width * 2 ∧
      (spawnResult b formation index count s W H env rng).y =
        H * rng.stream (rng.idx + 2)) ∧
    (spawnResult b formation index count s W H env rng).direction =
      headingOf (spawnResult b formation index count s W H env rng).x
        (spawnResult b formation index count s W H env rng).y W H env
        rng ∧
    |jitterOf env rng| ≤ env.pi / 8 ∧
    (spawnResult b formation index count s W H env rng).vx =
      env.cos (spawnResult b formation index count s W H env rng).direction *
        (spawnResult b formation index count s W H env rng).speed ∧
    (spawnResult b formation index count s W H env rng).vy =
      env.sin (spawnResult b formation index count s W H env rng).direction *
        (spawnResult b formation index count s W H env rng).speed ∧
    (spawnResult b formation index count s W H env rng).movementPattern =
      "direct" := by
  have hcx1 : 0.2 * W ≤ crossingXOf W rng := by
    unfold crossingXOf
    nlinarith [mul_nonneg hW.le h0a]
  have hcx2 : crossingXOf W rng < 0.8 * W := by
    unfold crossingXOf
    nlinarith [mul_pos hW (show (0:ℚ) < 1 - rng.stream rng.idx by linarith)]
  have hcy1 : 0.2 * H ≤ crossingYOf H rng := by
    unfold crossingYOf
    nlinarith [mul_nonneg hH.le h1a]
  have hcy2 : crossingYOf H rng < 0.8 * H := by
    unfold crossingYOf
    nlinarith [mul_pos hH
      (show (0:ℚ) < 1 - rng.stream (rng.idx + 1) by linarith)]
  have hj : |jitterOf env rng| ≤ env.pi / 8 := by
    unfold jitterOf
    rw [abs_le]
    constructor
    · nlinarith [mul_nonneg hpi h3a]
    · nlinarith [mul_nonneg hpi
        (show (0:ℚ) ≤ 1 - rng.stream (rng.idx + 3) by linarith)]
  interval_cases s
  · rw [spawnResult, position_eq0]
    exact ⟨rfl, hcx1, hcx2, hcy1, hcy2, fun _ => ⟨rfl, rfl⟩,
      fun h => absurd h (by norm_num), fun h => absurd h (by norm_num),
      fun h => absurd h (by norm_num), rfl, hj, rfl, rfl, rfl⟩
  · rw [spawnResult, position_eq1]
    exact ⟨rfl, hcx1, hcx2, hcy1, hcy2, fun h => absurd h (by norm_num),
      fun _ => ⟨rfl, rfl⟩, fun h => absurd h (by norm_num),
      fun h => absurd h (by norm_num), rfl, hj, rfl, rfl, rfl⟩
  · rw [spawnResult, position_eq2]
    exact ⟨rfl, hcx1, hcx2, hcy1, hcy2, fun h => absurd h (by norm_num),
      fun h => absurd h (by norm_num), fun _ => ⟨rfl, rfl⟩,
      fun h => absurd h (by norm_num), rfl, hj, rfl, rfl, rfl⟩
  · rw [spawnResult, position_eq3]
    exact ⟨rfl, hcx1, hcx2, hcy1, hcy2, fun h => absurd h (by norm_num),
      fun h => absurd h (by norm_num), fun h => absurd h (by norm_num),
      fun _ => ⟨rfl, rfl⟩, rfl, hj, rfl, rfl, rfl⟩

/-- Witness for the amended C6 at a concrete right-edge spawn. -/
theorem c6_spawn_positioning_witness :
    (spawnResult (Butterfly.create 1) "line" 0 15 1 800 600 envC
      rngC).x = 800 + (Butterfly.create 1).width ∧
    |jitterOf envC rngC| ≤ envC.pi / 8 := by
  have h := c6_spawn_positioning (Butterfly.create 1) "line" 0 15 1
    800 600 envC rngC (by norm_num) (by norm_num) (by norm_num)
    (by norm_num [envC]) (by norm_num [rngC]) (by norm_num [rngC])
    (by norm_num [rngC]) (by norm_num [rngC]) (by norm_num [rngC])
    (by norm_num [rngC])
  exact ⟨(h.2.2.2.2.2.2.1 rfl).1, h.2.2.2.2.2.2.2.2.2.2.1⟩

/-! ### Stale deferred spawns (C9 scenario) -/

theorem levelComplete_butterflies (g : GameState) (ft : Bool) (now : ℚ) :
    (levelComplete g ft now).butterflies = g.butterflies := by
  simp only [levelComplete, gameComplete]
  split_ifs <;> rfl

theorem startNextLevel_butterflies (g : GameState) (W H : ℚ)
    (env : MathEnv) (rng : Rng) :
    (startNextLevel g W H env rng).1.butterflies = g.butterflies := by
  show (spawnButterflies
    { g with currentWave := 0, isWaveTransitioning := false,
             waveTimer := 0, levelTimer := 0 }
    W H env rng).1.butterflies = g.butterflies
  rw [spawnButterflies_state]

/-- The level-1 wave of staggered insertions scheduled while the session
is at level 1. -/
def c9Wave : List Scheduled :=
  (actuallySpawnButterflies playState 800 600 envC rngC).2.1

/-- The session state after that level completes and the next level
starts (level 2, transition finished) — before any of the staggered
timers has fired. -/
def c9NextLevelState : GameState :=
  (startNextLevel (levelComplete { playState with levelTimer := 0 } true 0)
    800 600 envC rngC).1

/-- One of the still-pending staggered insertions from level 1. -/
def c9Stale : Scheduled := c9Wave.getD 0 ⟨0, Butterfly.create 1⟩

/-- C9 is violated by the code: a staggered insertion scheduled during
level 1 and fired after the transition to level 2 pushes its level-1
butterfly into level 2's live collection — the deferred callback checks
no level/epoch and is not dropped. -/
theorem c9_stale_spawn_lands :
    c9Stale.butterfly.level = 1 ∧
    c9NextLevelState.currentLevel = 2 ∧
    c9NextLevelState.butterflies = [] ∧
    (fireScheduled c9NextLevelState c9Stale).butterflies =
      [c9Stale.butterfly] ∧
    fireScheduled c9NextLevelState c9Stale ≠ c9NextLevelState := by
  have hsch : c9Wave =
      (spawnWaveGo (min (max playState.currentLevel 1) maxLevel)
        (formations.getD
          ((min (max playState.currentLevel 1) maxLevel - 1) %
            formations.length) "random") 15 800 600 envC
        (List.range 15) rngC).1 := by
    rw [c9Wave, actuallySpawn_sch _ _ _ _ _ (by decide)]
  have hlen : 0 < c9Wave.length := by
    rw [hsch,
      (spawnWaveGo_spec _ _ _ _ _ _ (List.range 15) rngC).1,
      List.length_range]
    norm_num
  have hmem : c9Stale ∈ c9Wave := by
    rw [c9Stale, List.getD_eq_getElem _ _ hlen]
    exact List.getElem_mem _
  have hlevel : c9Stale.butterfly.level = 1 := by
    rw [hsch] at hmem
    have := (spawnWaveGo_spec _ _ _ _ _ _ (List.range 15) rngC).2
      c9Stale hmem
    simpa [playState, Game.startState, maxLevel] using this
  have hbfs : c9NextLevelState.butterflies = [] := by
    rw [c9NextLevelState, startNextLevel_butterflies,
      levelComplete_butterflies]
    rfl
  refine ⟨hlevel, ?_, hbfs, ?_, ?_⟩
  · rw [c9NextLevelState, startNextLevel_level]
    rfl
  · show c9NextLevelState.butterflies ++ [c9Stale.butterfly] = _
    rw [hbfs]
    rfl
  · intro heq
    have h2 := congrArg GameState.butterflies heq
    rw [hbfs] at h2
    have h3 : c9NextLevelState.butterflies ++ [c9Stale.butterfly] =
        ([] : List Butterfly) := h2
    rw [hbfs] at h3
    simp at h3
